import Mathlib

/-!
Verification of the AutoGUILD component of the discord-shilling-framework
repository (`src/daf/guild/autoguild.py`) against its natural-language
specification.  Each Python construct the claims depend on is shallowly
embedded as an executable Lean definition; collaborator code that is not
part of the given sources (EventController, async_util, guilduser.GUILD)
is modelled from the specification where unavoidable, and each such
definition says so in its doc comment.
-/

namespace DAF

/-! ## Pattern matching (AutoGUILD._check_name_match, lines 262-267) -/

/-- Embedding of `AutoGUILD._check_name_match` (autoguild.py lines 262-267).
`search pat s = true` abstracts `re.search(pat, s) is not None`; the guild
`name` is optional because the Python argument may be `None` (the method
explicitly tests `name is not None`).  `inc` is the stored
`include_pattern`, `exc` the stored `exclude_pattern` (which is `None`
when no exclude pattern was given). -/
def check_name_match (search : String → String → Bool) (inc : String)
    (exc : Option String) (name : Option String) : Bool :=
  match name with
  | none => false
  | some s =>
    search inc s &&
      (match exc with
       | none => true
       | some e => !(search e s))

/-! ## Removal deadline (AutoGUILD.initialize, lines 283-296) -/

/-- The `remove_after` constructor argument: a relative `timedelta` or an
absolute `datetime` (times are modelled as integers). -/
inductive RemoveAfterArg
  | rel (delta : Int)
  | abs (stamp : Int)
deriving DecidableEq, Repr

/-- Outcome of the removal-deadline section of `initialize`: the stored
`_remove_after` deadline and the absolute time at which the removal timer
is scheduled to emit `server_removed` (`none` = no timer created). -/
structure RemovalSetup where
  remove_after : Option Int
  timer_at : Option Int
deriving DecidableEq, Repr

/-- Embedding of the removal-deadline section of `AutoGUILD.initialize`
(autoguild.py lines 283-296).  `now` is `datetime.now().astimezone()`.
For a `timedelta` the code stores `now + delta`; for a `datetime` the
`else` branch stores `datetime.now().astimezone()` itself (line 287),
discarding the provided datetime; in both cases `call_at` schedules
`server_removed` at the stored deadline.  With `remove_after = None`
neither a deadline nor a timer is created. -/
def init_remove_after (now : Int) (ra : Option RemoveAfterArg) : RemovalSetup :=
  match ra with
  | none => ⟨none, none⟩
  | some (.rel d) => ⟨some (now + d), some (now + d)⟩
  | some (.abs _) => ⟨some now, some now⟩

/-! ## Teardown (AutoGUILD._close, lines 513-541) -/

/-- The fields of an `AutoGUILD` that `_close` reads or writes:
the `_event_ctrl` reference (identified by a number), the four listener
registrations it removes, the two timer handles, the auto-join capability
and the number of still-open generated guild managers. -/
structure CloseView where
  event_ctrl : Option Nat
  join_listener : Bool
  update_listener : Bool
  member_join_listener : Bool
  invite_delete_listener : Bool
  removal_timer : Bool
  join_timer : Bool
  auto_join_open : Bool
  open_gen_guilds : Nat
deriving DecidableEq, Repr

/-- Embedding of `AutoGUILD._close` (autoguild.py lines 513-541).  The
second component is `true` exactly when the early-return branch
(`if self._event_ctrl is None: return`, line 518) was taken.  The body
removes the four listeners, cancels both timers, closes the auto-join
capability and closes every generated guild; no statement of the body
assigns `self._event_ctrl`, so that field is returned unchanged. -/
def close_ag (s : CloseView) : CloseView × Bool :=
  match s.event_ctrl with
  | none => (s, true)
  | some _ =>
    ({ s with
        join_listener := false
        update_listener := false
        member_join_listener := false
        invite_delete_listener := false
        removal_timer := false
        join_timer := false
        auto_join_open := false
        open_gen_guilds := 0 },
      false)

/-! ## Semaphore structure (decorators on _close/_join_guilds, lines 408, 513;
undecorated _on_update and _on_guild_remove, lines 392-406 and 506-511) -/

/-- Primitive actions of an `AutoGUILD` coroutine with respect to the
instance's `update_semaphore`: acquiring it, releasing it, or performing
a named piece of work. -/
inductive SemAct
  | acq
  | rel
  | work (tag : String)
deriving DecidableEq, Repr

/-- Trace of `AutoGUILD._close` (lines 513-541): the method is decorated
`@async_util.with_semaphore("update_semaphore")`, so its body runs
between an acquire and a release of the instance's semaphore. -/
def close_trace : List SemAct := [.acq, .work "close_body", .rel]

/-- Trace of `AutoGUILD._join_guilds` (lines 408-479): decorated
`@async_util.with_semaphore("update_semaphore")`. -/
def join_guilds_trace : List SemAct := [.acq, .work "join_body", .rel]

/-- Trace of `AutoGUILD._on_update` (lines 392-406): the method itself is
undecorated; it first awaits `self._close()` (whose decorator acquires and
releases the semaphore) and then runs the kwargs merge and
`update_obj_param` re-initialization with the semaphore no longer held. -/
def on_update_trace : List SemAct :=
  close_trace ++ [.work "merge_kwargs", .work "update_obj_param"]

/-- Trace of `AutoGUILD._on_guild_remove` (lines 506-511): undecorated; it
closes the matching generated guild (`g._close()` acquires that GUILD's
own semaphore, a different object from this instance's `update_semaphore`;
`guilduser.GUILD` is not part of the given sources) and removes it from
`_gen_guilds`, never touching this instance's semaphore. -/
def on_guild_remove_trace : List SemAct :=
  [.work "close_gen_guild", .work "remove_gen_guild"]

/-- Annotates each unit of work in a trace with whether the instance's
semaphore is held at that point (`d` is the current hold depth). -/
def runsHeld : List SemAct → Nat → List (String × Bool)
  | [], _ => []
  | .acq :: t, d => runsHeld t (d + 1)
  | .rel :: t, d => runsHeld t (d - 1)
  | .work s :: t, d => (s, decide (0 < d)) :: runsHeld t d

/-- A coroutine acquires the semaphore for its whole duration exactly when
every unit of work in its trace runs with the semaphore held. -/
def wholly_serialized (t : List SemAct) : Bool :=
  (runsHeld t 0).all (fun p => p.2)

/-! ## Invite tracking (AutoGUILD.initialize lines 298-324,
AutoGUILD._on_member_join lines 481-492) -/

/-- The closed enumeration of event identifiers the AutoGUILD code uses
(`EventID` members referenced in autoguild.py). -/
inductive EventID
  | server_update
  | server_removed
  | auto_guild_start_join
  | discord_guild_join
  | discord_guild_remove
  | discord_member_join
  | discord_invite_delete
deriving DecidableEq, Repr

/-- The AutoGUILD bound methods that are registered as event callbacks. -/
inductive CallbackID
  | on_update_cb
  | join_guilds_cb
  | on_guild_join_cb
  | on_guild_remove_cb
  | on_member_join_cb
  | on_invite_delete_cb
deriving DecidableEq, Repr

/-- One `add_listener(EventID, callback, predicate)` registration (the
predicate, a pure pattern check, is not needed to count registrations and
is omitted; the claims below consider events that satisfy it). -/
structure ListenerReg where
  event : EventID
  callback : CallbackID
deriving DecidableEq, Repr

/-- Python `dict` lookup on an insertion-ordered association list
(`d[k]`, returning `none` where Python raises `KeyError`). -/
def dictGet (d : List (String × Nat)) (k : String) : Option Nat :=
  match d with
  | [] => none
  | (k', v) :: rest => if k' = k then some v else dictGet rest k

/-- Python `d[k] = v` for a key already present: rewrites the value in
place, preserving insertion order. -/
def dictSet (d : List (String × Nat)) (k : String) (v : Nat) : List (String × Nat) :=
  d.map (fun p => if p.1 = k then (k, v) else p)

/-- Python `del d[k]`: drops the entry with key `k`. -/
def dictDel (d : List (String × Nat)) (k : String) : List (String × Nat) :=
  d.filter (fun p => !(p.1 == k))

/-- Embedding of the `for invite in list(counts.keys()):` loop inside
`AutoGUILD.initialize` (autoguild.py lines 303-322).  `fetched` is the
`{invite.id: invite.uses}` dict built from `_get_invites()` (line 301).
Each iteration resolves the tracked invite against `fetched`
(`counts[invite] = invites[invite]`, deleting unknown invites on
`KeyError`), and then — still inside the loop body (lines 313-322) —
registers the `_on_member_join` and `_on_invite_delete` listeners.
Returns the final counts dict and the listener registrations made, in
order. -/
def inviteLoop (fetched : List (String × Nat)) :
    List String → List (String × Nat) → List (String × Nat) × List ListenerReg
  | [], counts => (counts, [])
  | k :: ks, counts =>
    let counts' :=
      match dictGet fetched k with
      | some uses => dictSet counts k uses
      | none => dictDel counts k
    let rest := inviteLoop fetched ks counts'
    (rest.1,
      ⟨.discord_member_join, .on_member_join_cb⟩ ::
        ⟨.discord_invite_delete, .on_invite_delete_cb⟩ :: rest.2)

/-- Embedding of the invite-tracking section of `AutoGUILD.initialize`
(autoguild.py lines 298-324) in the case where the invite query succeeds
(`_get_invites` returned `fetched` without raising): the whole section is
skipped when `_invite_join_count` is empty (`if len(...)`, line 298);
otherwise the per-invite loop runs over a snapshot of the keys. -/
def initInviteSection (counts fetched : List (String × Nat)) :
    List (String × Nat) × List ListenerReg :=
  if counts.isEmpty then (counts, [])
  else inviteLoop fetched (counts.map Prod.fst) counts

/-- Modelled from the spec: `EventController.emit` (events module, absent
from the given sources; spec section 4.1: "emit invokes every registered
listener whose predicate (if any) accepts the payload", in registration
order).  Returns the callbacks invoked for one event whose payload passes
the listeners' predicates. -/
def emit_invocations (ls : List ListenerReg) (e : EventID) : List CallbackID :=
  (ls.filter (fun l => l.event == e)).map (fun l => l.callback)

/-- Embedding of the loop body of `AutoGUILD._on_member_join`
(autoguild.py lines 481-492): iterate over the tracked
`counts.items()` in order; for each, look up the freshly fetched use
count (`invites[id_]`, `KeyError` — modelled as `Except.error` — when the
tracked invite is missing from the fetch); on the first entry whose
stored count differs (`last_uses != uses`) store the new count, log that
single invite id and return.  Returns the final counts dict and the
logged invite id, if any. -/
def member_join_loop (fetched : List (String × Nat)) :
    List (String × Nat) → Except Unit (List (String × Nat) × Option String)
  | [] => .ok ([], none)
  | (id, last) :: rest =>
    match dictGet fetched id with
    | none => .error ()
    | some uses =>
      if last ≠ uses then .ok ((id, uses) :: rest, some id)
      else
        match member_join_loop fetched rest with
        | .error e => .error e
        | .ok (rest', logged) => .ok ((id, last) :: rest', logged)

/-- Embedding of `AutoGUILD._on_member_join` (autoguild.py lines
481-492): `counts` is `self._invite_join_count`, `fetched` the
`{invite.id: invite.uses}` dict re-fetched via `_get_invites()`. -/
def on_member_join (counts fetched : List (String × Nat)) :
    Except Unit (List (String × Nat) × Option String) :=
  member_join_loop fetched counts

/-- An entry of the tracked-counts dict whose freshly fetched use count
differs from the stored one (the condition `last_uses != uses` of
line 487). -/
def changedAt (fetched : List (String × Nat)) (p : String × Nat) : Bool :=
  match dictGet fetched p.1 with
  | some u => decide (u ≠ p.2)
  | none => false

/-! ## Template messages and generated guilds
(AutoGUILD.add_message lines 169-200, remove_message lines 203-232,
_make_new_guild lines 372-377) -/

/-- A `BaseChannelMessage` object as far as the fan-out logic observes it:
`objId` is the Python object identity (distinct for every live object,
fresh after `deepcopy`), `trackId` the tracking identifier
(`_update_tracked_id`, preserved by `deepcopy`), `content` the structural
payload (also preserved by `deepcopy`). -/
structure MsgObj where
  objId : Nat
  trackId : Nat
  content : Nat
deriving DecidableEq, Repr

/-- Python `==` between message objects.  Per the source's own comment in
`remove_message` (autoguild.py lines 224-225): "all deep copied messages
compare True, if they were copied from the same source message" — i.e.
equality keys on the tracking identifier, which `deepcopy` preserves. -/
def msgEq (a b : MsgObj) : Bool := a.trackId == b.trackId

/-- `copy.deepcopy` of a message: a fresh object identity carrying the
same tracking identifier and the same structural content. -/
def deepcopyMsg (freshId : Nat) (m : MsgObj) : MsgObj := ⟨freshId, m.trackId, m.content⟩

/-- A generated `GUILD` manager as far as the fan-out logic observes it:
its `_messages` list.  (`guilduser.GUILD` is not among the given sources;
modelled from the spec, section 3: a Guild manager "holds its template
message list".) -/
structure GenGuild where
  messages : List MsgObj
deriving DecidableEq, Repr

/-- The AutoGUILD state the message fan-out operates on: the template
list `_messages`, the generated guilds `_gen_guilds`, and `freshId`, the
allocator for object identities of new deep copies (every existing
object's `objId` is below it). -/
structure AGMsgState where
  template : List MsgObj
  gen_guilds : List GenGuild
  freshId : Nat
deriving DecidableEq, Repr

/-- The fan-out of `add_message` (autoguild.py line 200):
`asyncio.gather(*(g.add_message(deepcopy(message)) for g in self._gen_guilds))`.
Modelled from the spec for the missing `GUILD.add_message` (section 3:
a Guild manager holds its message list; `add_message` appends to it).
Each generated guild receives its own deep copy (the generator expression
evaluates `deepcopy(message)` once per guild), hence one fresh identity
per guild. -/
def fanoutAdd (m : MsgObj) : Nat → List GenGuild → List GenGuild
  | _, [] => []
  | f, g :: gs => ⟨g.messages ++ [deepcopyMsg f m]⟩ :: fanoutAdd m (f + 1) gs

/-- Embedding of `AutoGUILD.add_message` (autoguild.py lines 169-200):
appends the message to the template list and fans a deep copy out to
every currently generated guild. -/
def add_message (s : AGMsgState) (m : MsgObj) : AGMsgState :=
  { template := s.template ++ [m]
    gen_guilds := fanoutAdd m s.freshId s.gen_guilds
    freshId := s.freshId + s.gen_guilds.length }

/-- Python `list.index` restricted to the first position whose element
satisfies `p` (`none` where Python raises `ValueError`). -/
def listIndex (p : MsgObj → Bool) : List MsgObj → Option Nat
  | [] => none
  | x :: xs => if p x then some 0 else (listIndex p xs).map (· + 1)

/-- Python `list.remove(m)` (used by `self._messages.remove(message)` at
autoguild.py line 221): removes the first `==`-equal element, raising
`ValueError` (modelled as `Except.error`) when none exists. -/
def removeFirstEq (m : MsgObj) (l : List MsgObj) : Except Unit (List MsgObj) :=
  match listIndex (fun x => msgEq x m) l with
  | none => Except.error ()
  | some i => Except.ok (l.eraseIdx i)

/-- The per-guild part of `remove_message` (autoguild.py lines 223-230):
`idx = g._messages.index(message)` — Python `list.index` raises
`ValueError` when the element is absent, so the source's `if idx == -1`
guard is unreachable — followed by `g.remove_message(g._messages[idx])`
(`GUILD.remove_message` is not among the given sources; modelled from the
spec as removing that element from the guild's message list). -/
def removeFromGuilds (m : MsgObj) : List GenGuild → Except Unit (List GenGuild)
  | [] => Except.ok []
  | g :: gs =>
    match listIndex (fun x => msgEq x m) g.messages with
    | none => Except.error ()
    | some i =>
      match removeFromGuilds m gs with
      | Except.error e => Except.error e
      | Except.ok gs' => Except.ok (⟨g.messages.eraseIdx i⟩ :: gs')

/-- Embedding of `AutoGUILD.remove_message` (autoguild.py lines 203-232):
removes the message from the template list, then removes the
corresponding deep copy from every generated guild. -/
def remove_message (s : AGMsgState) (m : MsgObj) : Except Unit AGMsgState :=
  match removeFirstEq m s.template with
  | Except.error e => Except.error e
  | Except.ok template' =>
    match removeFromGuilds m s.gen_guilds with
    | Except.error e => Except.error e
    | Except.ok guilds' =>
      Except.ok { s with template := template', gen_guilds := guilds' }

/-- `copy.deepcopy` of a whole message list (autoguild.py line 373):
each element gets a fresh object identity, identities distinct among the
copies. -/
def copyList (f : Nat) : List MsgObj → List MsgObj
  | [] => []
  | m :: ms => deepcopyMsg f m :: copyList (f + 1) ms

/-- Embedding of `AutoGUILD._make_new_guild` (autoguild.py lines
372-377) in the success case of the generated guild's initialization:
`GUILD(guild, deepcopy(self._messages), self.logging, ...)` is appended
to `_gen_guilds`, seeded with a deep copy of the template list taken at
creation time. -/
def make_new_guild (s : AGMsgState) : AGMsgState :=
  { s with
      gen_guilds := s.gen_guilds ++ [⟨copyList s.freshId s.template⟩]
      freshId := s.freshId + s.template.length }

/-! ## Update protocol (AutoGUILD.update lines 234-250,
AutoGUILD._on_update lines 392-406) -/

/-- The construction parameters of an `AutoGUILD` that the update claims
observe (messages are identified by their values). -/
structure AGParams where
  include_pattern : String
  exclude_pattern : Option String
  messages : List Nat
  invite_track : List String
deriving DecidableEq, Repr

/-- An `AutoGUILD` as the update protocol observes it: the process-unique
tracking identifier (`@instance_track.track_id`; that module is not among
the given sources and is modelled from the spec, section 3: a tracking
identifier "assigned at construction (stable across update)"), the
current construction parameters, and `running` — whether the object's
resources (timers, listeners) are currently set up, i.e. the state
`initialize` establishes and `_close` tears down. -/
structure AGObject where
  track_id : Nat
  params : AGParams
  running : Bool
deriving DecidableEq, Repr

/-- The Python exceptions the update path can raise. -/
inductive PyErr
  | attributeError
  | updateError
deriving DecidableEq, Repr

/-- The caller-supplied overrides of `update(**kwargs)`: `none` = the
parameter is not overridden. -/
structure UpdateKwargs where
  include_pattern : Option String
  exclude_pattern : Option (Option String)
  messages : Option (List Nat)
  invite_track : Option (List String)
deriving DecidableEq, Repr

/-- `AutoGUILD._close` as the update protocol observes it: tears the
running resources down; no construction parameter and not the tracking
identifier is touched. -/
def closeObj (s : AGObject) : AGObject := { s with running := false }

/-- `AutoGUILD.initialize` as the update protocol observes it, with
`initFail` abstracting whether initializing with the given parameters
raises (`initialize` is `@async_util.except_return`-decorated, so a
failure is returned to the caller rather than thrown past it). -/
def initObj (initFail : AGParams → Bool) (s : AGObject) : AGObject :=
  if initFail s.params then { s with running := false } else { s with running := true }

/-- Lines 396-397 of autoguild.py:
`if "invite_track" not in kwargs: kwargs["invite_track"] = self.invite_track`.
`AutoGUILD` declares `__slots__` without an `invite_track` member and the
class defines no such property (its state lives in `_invite_join_count`);
the `@instance_track.track_id` decorator (absent from the given sources)
is modelled from the spec as supplying only the tracking identifier.  The
attribute access therefore raises `AttributeError` whenever the caller
did not pass `invite_track` explicitly. -/
def resolveInviteTrack (kw : UpdateKwargs) : Except PyErr UpdateKwargs :=
  match kw.invite_track with
  | some _ => Except.ok kw
  | none => Except.error PyErr.attributeError

/-- The parameter merge: caller overrides win, unsupplied parameters keep
their current values (inside `update_obj_param`, the snapshot of current
construction parameters merged with `kwargs`). -/
def mergeParams (cur : AGParams) (kw : UpdateKwargs) : AGParams :=
  { include_pattern := kw.include_pattern.getD cur.include_pattern
    exclude_pattern := kw.exclude_pattern.getD cur.exclude_pattern
    messages := kw.messages.getD cur.messages
    invite_track := kw.invite_track.getD cur.invite_track }

/-- Modelled from the spec: `async_util.update_obj_param` (absent from
the given sources; spec section 4.4: "snapshot current construction
parameters, merge with caller-supplied overrides (overrides win), ...
then re-run initialization with the merged parameters", and on failure
the object rolls back by re-initializing "with the pre-update
parameters", so a failure is modelled as raising without committing the
merged parameters). -/
def update_obj_param (initFail : AGParams → Bool) (s : AGObject) (merged : AGParams) :
    Except PyErr AGObject :=
  if initFail merged then Except.error PyErr.updateError
  else Except.ok { s with params := merged, running := true }

/-- Embedding of `AutoGUILD._on_update` (autoguild.py lines 392-406), the
single listener the `server_update` event emitted by `update()` reaches:
first `await self._close()`; then, inside `try`, default `invite_track`
from `self.invite_track` (raising, see `resolveInviteTrack`), default
`messages` from `self._messages`, and run `update_obj_param`; on any
exception re-run `initialize` on the object as it stands and re-raise.
Returns the final object together with the exception that propagates, if
any. -/
def on_update (initFail : AGParams → Bool) (s : AGObject) (kw : UpdateKwargs) :
    AGObject × Option PyErr :=
  let s0 := closeObj s
  match resolveInviteTrack kw with
  | Except.error e => (initObj initFail s0, some e)
  | Except.ok kw1 =>
    let kw2 := { kw1 with messages := some (kw1.messages.getD s0.params.messages) }
    match update_obj_param initFail s0 (mergeParams s0.params kw2) with
    | Except.error e => (initObj initFail s0, some e)
    | Except.ok s1 => (s1, none)

/-- Direct construction (`AutoGUILD.__init__` on the given parameters,
then `initialize`), against which the updated object's observable state
is compared; `tid` is the tracking identifier the tracker assigns. -/
def constructObj (initFail : AGParams → Bool) (tid : Nat) (p : AGParams) : AGObject :=
  initObj initFail ⟨tid, p, false⟩

/-! ## Auto-join loop (AutoGUILD._join_guilds lines 408-479,
AutoGUILD._reset_auto_join_timer lines 253-260) -/

/-- `GUILD_MAX_AMOUNT` (autoguild.py line 25). -/
def GUILD_MAX_AMOUNT : Nat := 100

/-- One result yielded by the discovery feed (`web.QueryResult`): its
guild id, its name, and whether a browser join attempt on it ends with
the client seeing the guild (abstracting the selenium calls of lines
456-467). -/
structure Candidate where
  cid : Nat
  name : String
  joinOk : Bool
deriving DecidableEq, Repr

/-- The `AutoGUILD` state `_join_guilds` operates on: the lazily
paginated discovery iterator (`none` once cleared; otherwise the
candidates it will still yield), the join budget counter, the ids of
guilds the client is a member of, whether the `auto_guild_start_join`
listener is still registered, whether the join timer is armed, and the
discovery capability's `limit`. -/
structure JoinState where
  guild_query_iter : Option (List Candidate)
  guild_join_count : Nat
  client_guilds : List Nat
  join_listener : Bool
  timer_armed : Bool
  limit : Nat
deriving DecidableEq, Repr

/-- The rejection condition inside `get_next_guild` (autoguild.py lines
429-435): the include pattern does not search positively, or an exclude
pattern is present and searches positively.  `search` abstracts
`re.search ... is not None` as in `check_name_match`. -/
def joinFilterReject (search : String → String → Bool) (inc : String)
    (exc : Option String) (c : Candidate) : Bool :=
  !(search inc c.name) ||
    (match exc with
     | some e => search e c.name
     | none => false)

/-- A candidate passing the include/exclude rule. -/
def joinFilterPass (search : String → String → Bool) (inc : String)
    (exc : Option String) (c : Candidate) : Bool :=
  !(joinFilterReject search inc exc c)

/-- Result of the `while True:` loop of `_join_guilds` (autoguild.py
lines 447-479): the iterator afterwards, the join counter, the client's
guilds, whether `_reset_auto_join_timer` was reached (line 479 runs only
after `break`; the `return` paths of lines 448-449 skip it), and how many
browser join attempts were made. -/
structure JoinLoopResult where
  iter : Option (List Candidate)
  count : Nat
  guilds : List Nat
  rearmed : Bool
  attempts : Nat
deriving DecidableEq, Repr

/-- Embedding of the `while True:` loop of `_join_guilds` together with
`get_next_guild` (autoguild.py lines 425-479): an exhausted feed clears
the iterator and returns (`StopAsyncIteration` branch); a candidate
rejected by the include/exclude rule makes `get_next_guild` return `None`
and the loop return — with the iterator still set; an already-joined
candidate increments the budget counter and continues; otherwise one join
is attempted (success iff `joinOk`, incrementing the counter and the
guild list) and the loop breaks, reaching the timer re-arm. -/
def joinLoop (search : String → String → Bool) (inc : String) (exc : Option String) :
    List Candidate → Nat → List Nat → JoinLoopResult
  | [], count, guilds => ⟨none, count, guilds, false, 0⟩
  | c :: rest, count, guilds =>
    if joinFilterReject search inc exc c then ⟨some rest, count, guilds, false, 0⟩
    else if guilds.contains c.cid then joinLoop search inc exc rest (count + 1) guilds
    else
      ⟨some rest,
        if c.joinOk then count + 1 else count,
        if c.joinOk then guilds ++ [c.cid] else guilds,
        true, 1⟩

/-- Embedding of `AutoGUILD._join_guilds` (autoguild.py lines 408-479),
one firing of the `auto_guild_start_join` timer: if the iterator is
cleared, the budget equals the discovery limit, or the client is in
`GUILD_MAX_AMOUNT` guilds, the `auto_guild_start_join` listener is
removed and the coroutine returns; otherwise the candidate loop runs and
the timer is re-armed exactly when the loop reached its `break`. -/
def join_guilds (search : String → String → Bool) (inc : String) (exc : Option String)
    (s : JoinState) : JoinState :=
  match s.guild_query_iter with
  | none => { s with join_listener := false, timer_armed := false }
  | some feed =>
    if s.guild_join_count == s.limit || s.client_guilds.length == GUILD_MAX_AMOUNT then
      { s with join_listener := false, timer_armed := false }
    else
      let r := joinLoop search inc exc feed s.guild_join_count s.client_guilds
      { s with
          guild_query_iter := r.iter
          guild_join_count := r.count
          client_guilds := r.guilds
          timer_armed := r.rearmed }

/-! ## Theorems -/

/-- Claim C3: for every guild name and every include/exclude pattern
pair, `_check_name_match(name)` returns true iff the include pattern
search matches the name and (the exclude pattern is absent or its search
does not match the name); in particular a name matching both include and
exclude is excluded, since the right-hand side then fails its second
conjunct. -/
theorem c3_check_name_match (search : String → String → Bool) (inc : String)
    (exc : Option String) (s : String) :
    check_name_match search inc exc (some s) = true ↔
      (search inc s = true ∧ ∀ e, exc = some e → search e s = false) := by
  cases exc with
  | none => simp [check_name_match]
  | some e => simp [check_name_match]

/-- Claim C6 (code bug): evaluating the removal-deadline section of
`initialize`.  With an absolute datetime (stamp 250) and initialization
at time 100, the code stores deadline 100 — `datetime.now()`, not the
provided datetime — and schedules `server_removed` immediately,
diverging from the claim; the timedelta and `None` branches behave as
the claim states. -/
theorem c6_remove_after_code :
    init_remove_after 100 (some (RemoveAfterArg.abs 250)) = ⟨some 100, some 100⟩ ∧
    (init_remove_after 100 (some (RemoveAfterArg.abs 250))).remove_after ≠ some 250 ∧
    init_remove_after 100 (some (RemoveAfterArg.rel 40)) = ⟨some 140, some 140⟩ ∧
    init_remove_after 100 none = ⟨none, none⟩ := by
  decide

/-- Claim C8 (code bug): on an initialized `AutoGUILD` (EventController
reference set, listeners registered, timers armed, two generated
guilds), `_close()` leaves `_event_ctrl` still set — no statement of the
body clears it — so a second `_close()` does not take the early-return
branch, contradicting the claim (and the code's own comment on line 518,
which says a `None` reference means "Not initialized or already
closed"). -/
theorem c8_close_keeps_event_ctrl :
    (close_ag ⟨some 1, true, true, true, true, true, true, true, 2⟩).1.event_ctrl = some 1 ∧
    (close_ag (close_ag ⟨some 1, true, true, true, true, true, true, true, 2⟩).1).2 = false := by
  decide

/-- Claim C9, counterexample: it is false that `_on_update` and
`_on_guild_remove` both hold the instance's `update_semaphore` for their
whole duration — `_on_update` runs its merge and re-initialization after
`_close` has released the semaphore, and `_on_guild_remove` never
acquires it at all. -/
theorem c9_not_wholly_serialized :
    (wholly_serialized on_update_trace && wholly_serialized on_guild_remove_trace) = false := by
  decide

/-- Claim C9, amended: only `_close` and `_join_guilds` are serialized
by `update_semaphore` (they carry the `with_semaphore` decorator);
`_on_update` holds the semaphore only during its initial `_close` call
and runs the kwargs merge and `update_obj_param` outside it, and
`_on_guild_remove` performs both of its steps without ever holding it —
so an update and a guild removal can interleave across suspension
points. -/
theorem c9_semaphore_structure :
    wholly_serialized close_trace = true ∧
    wholly_serialized join_guilds_trace = true ∧
    runsHeld on_update_trace 0 =
      [("close_body", true), ("merge_kwargs", false), ("update_obj_param", false)] ∧
    runsHeld on_guild_remove_trace 0 =
      [("close_gen_guild", false), ("remove_gen_guild", false)] ∧
    wholly_serialized on_update_trace = false ∧
    wholly_serialized on_guild_remove_trace = false := by
  decide

/-- Claim C1 (code bug): an initialized `AutoGUILD` (tracking id 42,
messages `[1]`, tracked invite `["inv1"]`) updated with the override
`messages=[2]` and no `invite_track` override.  Line 397 reads
`self.invite_track`, an attribute the class does not have, so the update
raises `AttributeError`, rolls back, and leaves the message set `[1]` —
whereas direct construction with the merged parameters (which the claim
promises equivalence with) has message set `[2]`. -/
theorem c1_update_attribute_error :
    on_update (fun _ => false) ⟨42, ⟨"shill", none, [1], ["inv1"]⟩, true⟩
        ⟨none, none, some [2], none⟩ =
      (⟨42, ⟨"shill", none, [1], ["inv1"]⟩, true⟩, some PyErr.attributeError) ∧
    (constructObj (fun _ => false) 42
        (mergeParams ⟨"shill", none, [1], ["inv1"]⟩
          ⟨none, none, some [2], some ["inv1"]⟩)).params.messages = [2] ∧
    (on_update (fun _ => false) ⟨42, ⟨"shill", none, [1], ["inv1"]⟩, true⟩
        ⟨none, none, some [2], none⟩).1.params.messages ≠ [2] := by
  decide

/-- Claim C2: whenever the body of `_on_update` raises (any propagated
exception `e`), and re-initializing with the pre-update parameters
succeeds (`hpre`; they were running before the update), the object ends
up re-initialized with its pre-update parameters — same tracking id,
same parameters, running — while the original exception propagates to
the emitter of the `server_update` event. -/
theorem c2_update_rollback (initFail : AGParams → Bool) (s : AGObject)
    (kw : UpdateKwargs) (hpre : initFail s.params = false) (e : PyErr)
    (hfail : (on_update initFail s kw).2 = some e) :
    (on_update initFail s kw).1 = { s with running := true } := by
  cases hkw : kw.invite_track with
  | none =>
    simp [on_update, resolveInviteTrack, hkw, initObj, closeObj, hpre]
  | some l =>
    by_cases hm :
        initFail (mergeParams s.params
          ⟨kw.include_pattern, kw.exclude_pattern,
            some (kw.messages.getD s.params.messages), some l⟩) = true
    · simp [on_update, resolveInviteTrack, hkw, update_obj_param, hm, initObj, closeObj, hpre]
    · exfalso
      simp [on_update, resolveInviteTrack, hkw, update_obj_param, hm, closeObj] at hfail

/-- Witness for C2 at a concrete input: the update override
`messages=[2]` with no `invite_track` override raises `AttributeError`;
the rollback re-initializes the object with its pre-update parameters. -/
theorem c2_update_rollback_witness :
    ((fun (_ : AGParams) => false)
        (AGObject.mk 42 ⟨"shill", none, [1], ["inv1"]⟩ true).params = false) ∧
    (on_update (fun _ => false) ⟨42, ⟨"shill", none, [1], ["inv1"]⟩, true⟩
        ⟨none, none, some [2], none⟩).2 = some PyErr.attributeError ∧
    (on_update (fun _ => false) ⟨42, ⟨"shill", none, [1], ["inv1"]⟩, true⟩
        ⟨none, none, some [2], none⟩).1 =
      { (⟨42, ⟨"shill", none, [1], ["inv1"]⟩, true⟩ : AGObject) with running := true } :=
  ⟨rfl, by decide,
    c2_update_rollback (fun _ => false) ⟨42, ⟨"shill", none, [1], ["inv1"]⟩, true⟩
      ⟨none, none, some [2], none⟩ rfl PyErr.attributeError (by decide)⟩

theorem inviteLoop_filter_member_join (fetched : List (String × Nat)) :
    ∀ (ks : List String) (counts : List (String × Nat)),
      (inviteLoop fetched ks counts).2.filter
          (fun l => l.event == EventID.discord_member_join) =
        List.replicate ks.length
          ⟨EventID.discord_member_join, CallbackID.on_member_join_cb⟩ := by
  intro ks
  induction ks with
  | nil => intro counts; rfl
  | cons k ks ih =>
    intro counts
    simp [inviteLoop, List.filter_cons, List.replicate_succ, ih]

theorem inviteLoop_filter_invite_delete (fetched : List (String × Nat)) :
    ∀ (ks : List String) (counts : List (String × Nat)),
      (inviteLoop fetched ks counts).2.filter
          (fun l => l.event == EventID.discord_invite_delete) =
        List.replicate ks.length
          ⟨EventID.discord_invite_delete, CallbackID.on_invite_delete_cb⟩ := by
  intro ks
  induction ks with
  | nil => intro counts; rfl
  | cons k ks ih =>
    intro counts
    simp [inviteLoop, List.filter_cons, List.replicate_succ, ih]

/-- Claim C10: on an AutoGUILD whose invite query succeeded, the
`_on_member_join` and `_on_invite_delete` listeners are registered once
per iteration of the per-invite loop — `counts.length` times each, not
once per instance; with zero tracked invites neither is registered; and
a single matching member-join event dispatched by the EventController
invokes the attribution handler once per registration, i.e. as many
times as there were loop iterations. -/
theorem c10_listener_registration_per_invite (counts fetched : List (String × Nat)) :
    ((initInviteSection counts fetched).2.filter
        (fun l => l.event == EventID.discord_member_join)).length = counts.length ∧
    ((initInviteSection counts fetched).2.filter
        (fun l => l.event == EventID.discord_invite_delete)).length = counts.length ∧
    (initInviteSection [] fetched).2 = [] ∧
    emit_invocations (initInviteSection counts fetched).2 EventID.discord_member_join =
      List.replicate counts.length CallbackID.on_member_join_cb := by
  refine ⟨?_, ?_, rfl, ?_⟩
  · cases counts with
    | nil => rfl
    | cons c cs =>
      simp [initInviteSection, inviteLoop_filter_member_join]
  · cases counts with
    | nil => rfl
    | cons c cs =>
      simp [initInviteSection, inviteLoop_filter_invite_delete]
  · cases counts with
    | nil => rfl
    | cons c cs =>
      simp [initInviteSection, emit_invocations, inviteLoop_filter_member_join]

/-- Claim C7, counterexample: with one tracked invite `"a"` whose stored
count is 5 and whose re-fetched count is 3, the handler attributes the
join to `"a"`, updates its count and logs it, although its use count did
not increase (the code tests `last_uses != uses`, any change, not an
increase). -/
theorem c7_attribution_on_decrease :
    on_member_join [("a", 5)] [("a", 3)] = Except.ok ([("a", 3)], some "a") ∧
    ¬(5 < 3) :=
  ⟨rfl, by omega⟩

/-- Claim C7, amended: provided every tracked invite appears in the
re-fetched counts (otherwise the `invites[id_]` lookup raises `KeyError`
and aborts the handler), `_on_member_join` attributes the join to the
first invite in iteration order whose use count differs from the last
known count — changed in either direction, not necessarily increased —
updates only that invite's stored count and logs exactly that one invite
context; when no tracked invite's count changed, nothing is updated or
logged. -/
theorem c7_first_changed_attribution (fetched : List (String × Nat)) :
    ∀ counts : List (String × Nat),
      (∀ p ∈ counts, (dictGet fetched p.1).isSome = true) →
      ∃ counts' logged,
        on_member_join counts fetched = Except.ok (counts', logged) ∧
        ((logged = none ∧ counts' = counts ∧
            ∀ p ∈ counts, changedAt fetched p = false) ∨
         (∃ id u pre last post,
            logged = some id ∧
            counts = pre ++ (id, last) :: post ∧
            (∀ p ∈ pre, changedAt fetched p = false) ∧
            changedAt fetched (id, last) = true ∧
            dictGet fetched id = some u ∧
            counts' = pre ++ (id, u) :: post)) := by
  intro counts
  induction counts with
  | nil =>
    intro _
    exact ⟨[], none, rfl, Or.inl ⟨rfl, rfl, by simp⟩⟩
  | cons p rest ih =>
    intro h
    obtain ⟨id, last⟩ := p
    have hhead := h (id, last) (by simp)
    cases hu : dictGet fetched id with
    | none => rw [hu] at hhead; simp at hhead
    | some u =>
      by_cases hne : last ≠ u
      · refine ⟨(id, u) :: rest, some id, ?_, Or.inr ⟨id, u, [], last, rest, rfl, rfl, by simp, ?_, hu, rfl⟩⟩
        · simp [on_member_join, member_join_loop, hu, hne]
        · simp [changedAt, hu]
          exact Ne.symm hne
      · obtain ⟨counts', logged, heq, hdisj⟩ := ih (fun q hq => h q (by simp [hq]))
        push_neg at hne
        refine ⟨(id, last) :: counts', logged, ?_, ?_⟩
        · simp only [on_member_join, member_join_loop, hu, hne, ne_eq, not_true_eq_false,
            if_false]
          rw [show member_join_loop fetched rest = Except.ok (counts', logged) from heq]
        · have hchf : changedAt fetched (id, last) = false := by
            simp [changedAt, hu]
            omega
          cases hdisj with
          | inl hl =>
            exact Or.inl ⟨hl.1, by rw [hl.2.1], by
              intro q hq
              rcases List.mem_cons.mp hq with hq | hq
              · rw [hq]; exact hchf
              · exact hl.2.2 q hq⟩
          | inr hr =>
            obtain ⟨id', u', pre, last', post, hl, hc, hpre, hch, hg, hc'⟩ := hr
            refine Or.inr ⟨id', u', (id, last) :: pre, last', post, hl, ?_, ?_, hch, hg, ?_⟩
            · rw [hc]; rfl
            · intro q hq
              rcases List.mem_cons.mp hq with hq | hq
              · rw [hq]; exact hchf
              · exact hpre q hq
            · rw [hc']; rfl

/-- Witness for the amended C7 at a concrete input: two tracked invites,
`"a"` unchanged (5 → 5) and `"b"` changed (2 → 7), both present in the
fetch. -/
theorem c7_first_changed_attribution_witness :
    (∀ p ∈ [("a", 5), ("b", 2)],
        (dictGet [("a", 5), ("b", 7)] p.1).isSome = true) ∧
    (∃ counts' logged,
        on_member_join [("a", 5), ("b", 2)] [("a", 5), ("b", 7)] =
          Except.ok (counts', logged) ∧
        ((logged = none ∧ counts' = [("a", 5), ("b", 2)] ∧
            ∀ p ∈ [("a", 5), ("b", 2)], changedAt [("a", 5), ("b", 7)] p = false) ∨
         (∃ id u pre last post,
            logged = some id ∧
            [("a", 5), ("b", 2)] = pre ++ (id, last) :: post ∧
            (∀ p ∈ pre, changedAt [("a", 5), ("b", 7)] p = false) ∧
            changedAt [("a", 5), ("b", 7)] (id, last) = true ∧
            dictGet [("a", 5), ("b", 7)] id = some u ∧
            counts' = pre ++ (id, u) :: post))) :=
  ⟨by decide,
    c7_first_changed_attribution [("a", 5), ("b", 7)] [("a", 5), ("b", 2)] (by decide)⟩

theorem fanoutAdd_copy_mem (m : MsgObj) :
    ∀ (gs : List GenGuild) (f : Nat), m.objId < f →
      ∀ g ∈ fanoutAdd m f gs,
        ∃ c ∈ g.messages, msgEq c m = true ∧ c.objId ≠ m.objId := by
  intro gs
  induction gs with
  | nil => intro f _ g hg; simp [fanoutAdd] at hg
  | cons g0 gs ih =>
    intro f hf g hg
    simp only [fanoutAdd, List.mem_cons] at hg
    rcases hg with hg | hg
    · subst hg
      refine ⟨deepcopyMsg f m, by simp, ?_, ?_⟩
      · simp [msgEq, deepcopyMsg]
      · simp [deepcopyMsg]
        omega
    · exact ih (f + 1) (by omega) g hg

theorem listIndex_eraseIdx_countP (p : MsgObj → Bool) :
    ∀ (l : List MsgObj) (i : Nat), listIndex p l = some i →
      (l.eraseIdx i).countP p + 1 = l.countP p := by
  intro l
  induction l with
  | nil => intro i h; simp [listIndex] at h
  | cons x xs ih =>
    intro i h
    cases hx : p x with
    | true =>
      simp [listIndex, hx] at h
      subst h
      simp [List.countP_cons, hx, List.eraseIdx]
    | false =>
      simp [listIndex, hx] at h
      obtain ⟨j, hj, rfl⟩ := h
      have hrec := ih j hj
      have he : (x :: xs).eraseIdx (j + 1) = x :: xs.eraseIdx j := rfl
      rw [he]
      simp [List.countP_cons, hx]
      omega

theorem listIndex_some_countP_pos (p : MsgObj → Bool) :
    ∀ (l : List MsgObj) (i : Nat), listIndex p l = some i → 0 < l.countP p := by
  intro l
  induction l with
  | nil => intro i h; simp [listIndex] at h
  | cons x xs ih =>
    intro i h
    cases hx : p x with
    | true => simp only [List.countP_cons, hx, if_true]; omega
    | false =>
      simp [listIndex, hx] at h
      obtain ⟨j, hj, _⟩ := h
      have hrec := ih j hj
      simp only [List.countP_cons, hx, if_false]
      omega

theorem copyList_forall₂ :
    ∀ (tmpl : List MsgObj) (f : Nat), (∀ t ∈ tmpl, t.objId < f) →
      List.Forall₂ (fun c t => msgEq c t = true ∧ c.objId ≠ t.objId)
        (copyList f tmpl) tmpl := by
  intro tmpl
  induction tmpl with
  | nil => intro f _; exact List.Forall₂.nil
  | cons t ts ih =>
    intro f hf
    refine List.Forall₂.cons ⟨?_, ?_⟩ (ih (f + 1) ?_)
    · simp [msgEq, deepcopyMsg]
    · have := hf t (by simp)
      simp [deepcopyMsg]
      omega
    · intro q hq
      have := hf q (by simp [hq])
      omega

theorem removeFromGuilds_countP (m : MsgObj) :
    ∀ (gs gs' : List GenGuild),
      (∀ g ∈ gs, g.messages.countP (fun x => msgEq x m) ≤ 1) →
      removeFromGuilds m gs = Except.ok gs' →
      ∀ g ∈ gs', g.messages.countP (fun x => msgEq x m) = 0 := by
  intro gs
  induction gs with
  | nil =>
    intro gs' _ h
    simp only [removeFromGuilds, Except.ok.injEq] at h
    subst h
    simp
  | cons g0 gs ih =>
    intro gs' hle h
    cases hidx : listIndex (fun x => msgEq x m) g0.messages with
    | none => simp [removeFromGuilds, hidx] at h
    | some i =>
      cases hrec : removeFromGuilds m gs with
      | error e => simp [removeFromGuilds, hidx, hrec] at h
      | ok gs'' =>
        simp only [removeFromGuilds, hidx, hrec, Except.ok.injEq] at h
        subst h
        intro g hg
        rcases List.mem_cons.mp hg with hg | hg
        · subst hg
          have h1 := listIndex_eraseIdx_countP (fun x => msgEq x m) g0.messages i hidx
          have h3 := hle g0 (by simp)
          show (g0.messages.eraseIdx i).countP (fun x => msgEq x m) = 0
          omega
        · exact ih gs'' (fun g hgm => hle g (by simp [hgm])) hrec g hg

/-- Claim C4: for a message `m` whose object identity is live
(`hm`: below the copy allocator):
(a) after `add_message m`, every currently generated guild's message
list contains a structural copy of `m` — equal by value, distinct
identity;
(b) whenever `m` occurs exactly once (by value) in the template list, no
generated guild holds more than one copy, and `remove_message m`
completes, the template list retains no element equal to `m` and no
generated guild retains a copy;
(c) a guild generated later is seeded with a deep copy of the template
list taken at creation time: element-wise equal by value with fresh,
distinct identities. -/
theorem c4_message_fanout (s : AGMsgState) (m : MsgObj) (hm : m.objId < s.freshId) :
    (∀ g ∈ (add_message s m).gen_guilds,
        ∃ c ∈ g.messages, msgEq c m = true ∧ c.objId ≠ m.objId) ∧
    (∀ s',
        s.template.countP (fun x => msgEq x m) = 1 →
        (∀ g ∈ s.gen_guilds, g.messages.countP (fun x => msgEq x m) ≤ 1) →
        remove_message s m = Except.ok s' →
        s'.template.countP (fun x => msgEq x m) = 0 ∧
        ∀ g ∈ s'.gen_guilds, g.messages.countP (fun x => msgEq x m) = 0) ∧
    ((∀ t ∈ s.template, t.objId < s.freshId) →
        (make_new_guild s).gen_guilds =
          s.gen_guilds ++ [⟨copyList s.freshId s.template⟩] ∧
        List.Forall₂ (fun c t => msgEq c t = true ∧ c.objId ≠ t.objId)
          (copyList s.freshId s.template) s.template) := by
  refine ⟨?_, ?_, ?_⟩
  · intro g hg
    exact fanoutAdd_copy_mem m s.gen_guilds s.freshId hm g hg
  · intro s' htpl hgle hok
    cases hrt : removeFirstEq m s.template with
    | error e => simp [remove_message, hrt] at hok
    | ok template' =>
      cases hrg : removeFromGuilds m s.gen_guilds with
      | error e => simp [remove_message, hrt, hrg] at hok
      | ok guilds' =>
        simp only [remove_message, hrt, hrg, Except.ok.injEq] at hok
        subst hok
        constructor
        · show template'.countP (fun x => msgEq x m) = 0
          cases hti : listIndex (fun x => msgEq x m) s.template with
          | none => simp [removeFirstEq, hti] at hrt
          | some i =>
            simp only [removeFirstEq, hti, Except.ok.injEq] at hrt
            subst hrt
            have := listIndex_eraseIdx_countP (fun x => msgEq x m) s.template i hti
            omega
        · exact removeFromGuilds_countP m s.gen_guilds guilds' hgle hrg
  · intro hlt
    exact ⟨rfl, copyList_forall₂ s.template s.freshId hlt⟩

/-- Witness for C4 at a concrete input: state with one template message
(identity 0, tracking id 5), one generated guild holding its copy
(identity 1), allocator at 4; the message `m` (identity 2) carries
tracking id 5, so it compares equal to the template entry. -/
theorem c4_message_fanout_witness :
    ((⟨2, 5, 9⟩ : MsgObj).objId <
        (⟨[⟨0, 5, 9⟩], [⟨[⟨1, 5, 9⟩]⟩], 4⟩ : AGMsgState).freshId) ∧
    ((∀ g ∈ (add_message ⟨[⟨0, 5, 9⟩], [⟨[⟨1, 5, 9⟩]⟩], 4⟩ ⟨2, 5, 9⟩).gen_guilds,
        ∃ c ∈ g.messages, msgEq c ⟨2, 5, 9⟩ = true ∧ c.objId ≠ (⟨2, 5, 9⟩ : MsgObj).objId) ∧
    (∀ s',
        (⟨[⟨0, 5, 9⟩], [⟨[⟨1, 5, 9⟩]⟩], 4⟩ : AGMsgState).template.countP
            (fun x => msgEq x ⟨2, 5, 9⟩) = 1 →
        (∀ g ∈ (⟨[⟨0, 5, 9⟩], [⟨[⟨1, 5, 9⟩]⟩], 4⟩ : AGMsgState).gen_guilds,
            g.messages.countP (fun x => msgEq x ⟨2, 5, 9⟩) ≤ 1) →
        remove_message ⟨[⟨0, 5, 9⟩], [⟨[⟨1, 5, 9⟩]⟩], 4⟩ ⟨2, 5, 9⟩ = Except.ok s' →
        s'.template.countP (fun x => msgEq x ⟨2, 5, 9⟩) = 0 ∧
        ∀ g ∈ s'.gen_guilds, g.messages.countP (fun x => msgEq x ⟨2, 5, 9⟩) = 0) ∧
    ((∀ t ∈ (⟨[⟨0, 5, 9⟩], [⟨[⟨1, 5, 9⟩]⟩], 4⟩ : AGMsgState).template,
          t.objId < (⟨[⟨0, 5, 9⟩], [⟨[⟨1, 5, 9⟩]⟩], 4⟩ : AGMsgState).freshId) →
        (make_new_guild ⟨[⟨0, 5, 9⟩], [⟨[⟨1, 5, 9⟩]⟩], 4⟩).gen_guilds =
          (⟨[⟨0, 5, 9⟩], [⟨[⟨1, 5, 9⟩]⟩], 4⟩ : AGMsgState).gen_guilds ++
            [⟨copyList (⟨[⟨0, 5, 9⟩], [⟨[⟨1, 5, 9⟩]⟩], 4⟩ : AGMsgState).freshId
                (⟨[⟨0, 5, 9⟩], [⟨[⟨1, 5, 9⟩]⟩], 4⟩ : AGMsgState).template⟩] ∧
        List.Forall₂ (fun c t => msgEq c t = true ∧ c.objId ≠ t.objId)
          (copyList (⟨[⟨0, 5, 9⟩], [⟨[⟨1, 5, 9⟩]⟩], 4⟩ : AGMsgState).freshId
            (⟨[⟨0, 5, 9⟩], [⟨[⟨1, 5, 9⟩]⟩], 4⟩ : AGMsgState).template)
          (⟨[⟨0, 5, 9⟩], [⟨[⟨1, 5, 9⟩]⟩], 4⟩ : AGMsgState).template)) :=
  ⟨by decide, c4_message_fanout ⟨[⟨0, 5, 9⟩], [⟨[⟨1, 5, 9⟩]⟩], 4⟩ ⟨2, 5, 9⟩ (by decide)⟩

/-- Claim C5, counterexample: a firing whose entry checks pass (budget
0 ≠ limit 3, guild count 0 ≠ 100) pulls one candidate that fails the
include filter (`"bad"` does not match include `"good"` under the exact
matcher): the firing returns with the timer NOT re-armed — refuting
"re-arms the timer regardless of outcome" — and with the
`auto_guild_start_join` listener still registered, although none of the
claim's three stop conditions holds (the iterator is still set). -/
theorem c5_no_rearm_on_filtered_candidate :
    (join_guilds (fun a b => a == b) "good" none
        ⟨some [⟨5, "bad", true⟩], 0, [], true, false, 3⟩).timer_armed = false ∧
    (join_guilds (fun a b => a == b) "good" none
        ⟨some [⟨5, "bad", true⟩], 0, [], true, false, 3⟩).join_listener = true ∧
    (join_guilds (fun a b => a == b) "good" none
        ⟨some [⟨5, "bad", true⟩], 0, [], true, false, 3⟩).guild_query_iter = some [] ∧
    (0 : Nat) ≠ 3 ∧ ([] : List Nat).length ≠ 100 := by
  decide

theorem joinLoop_rearmed_iff (search : String → String → Bool) (inc : String)
    (exc : Option String) :
    ∀ (feed : List Candidate) (count : Nat) (guilds : List Nat),
      (joinLoop search inc exc feed count guilds).rearmed =
        (match (feed.dropWhile (fun c => joinFilterPass search inc exc c &&
            guilds.contains c.cid)).head? with
         | none => false
         | some h => joinFilterPass search inc exc h) := by
  intro feed
  induction feed with
  | nil => intro count guilds; rfl
  | cons c cs ih =>
    intro count guilds
    cases hr : joinFilterReject search inc exc c with
    | true =>
      have hp : joinFilterPass search inc exc c = false := by
        simp [joinFilterPass, hr]
      simp [joinLoop, hr, List.dropWhile_cons, hp]
    | false =>
      have hp : joinFilterPass search inc exc c = true := by
        simp [joinFilterPass, hr]
      cases hc : guilds.contains c.cid with
      | true =>
        simp at hc
        simp [joinLoop, hr, hc, List.dropWhile_cons, hp, ih]
      | false =>
        simp at hc
        simp [joinLoop, hr, hc, List.dropWhile_cons, hp]

theorem joinLoop_attempts_le_one (search : String → String → Bool) (inc : String)
    (exc : Option String) :
    ∀ (feed : List Candidate) (count : Nat) (guilds : List Nat),
      (joinLoop search inc exc feed count guilds).attempts ≤ 1 := by
  intro feed
  induction feed with
  | nil => intro count guilds; simp [joinLoop]
  | cons c cs ih =>
    intro count guilds
    cases hr : joinFilterReject search inc exc c with
    | true => simp [joinLoop, hr]
    | false =>
      cases hc : guilds.contains c.cid with
      | true =>
        simp at hc
        simp [joinLoop, hr, hc, ih]
      | false =>
        simp at hc
        simp [joinLoop, hr, hc]

theorem joinLoop_all_skipped (search : String → String → Bool) (inc : String)
    (exc : Option String) :
    ∀ (feed : List Candidate) (count : Nat) (guilds : List Nat),
      (∀ c ∈ feed, joinFilterPass search inc exc c = true ∧
          guilds.contains c.cid = true) →
      joinLoop search inc exc feed count guilds =
        ⟨none, count + feed.length, guilds, false, 0⟩ := by
  intro feed
  induction feed with
  | nil => intro count guilds _; simp [joinLoop]
  | cons c cs ih =>
    intro count guilds hall
    obtain ⟨hp, hc⟩ := hall c (by simp)
    have hr : joinFilterReject search inc exc c = false := by
      have := hp
      simp [joinFilterPass] at this
      exact this
    simp at hc
    rw [show joinLoop search inc exc (c :: cs) count guilds =
        joinLoop search inc exc cs (count + 1) guilds by
      simp [joinLoop, hr, hc]]
    rw [ih (count + 1) guilds (fun q hq => hall q (by simp [hq]))]
    simp
    omega

/-- Claim C5, amended: on a firing whose entry checks pass (iterator
set, budget below the discovery limit, guild count below 100):
the `auto_guild_start_join` listener stays registered; the timer is
re-armed exactly when, after skipping the leading candidates that pass
the include/exclude rule and are already joined, a next candidate exists
and passes the rule (i.e. a join is attempted) — in particular a firing
that exhausts the feed or meets a filtered-out candidate neither re-arms
the timer nor removes the listener; at most one join is attempted per
firing; skipped already-joined candidates each increment the join
budget; and the listener is removed (with no re-arm) exactly on a firing
whose entry finds the iterator already cleared, the budget equal to the
limit, or the guild count at 100 — here stated for the cleared-iterator
case, the only one reachable given that exhaustion clears the iterator
only on a firing that does not re-arm the timer. -/
theorem c5_join_firing_behavior (search : String → String → Bool) (inc : String)
    (exc : Option String) (s : JoinState) (feed : List Candidate)
    (hiter : s.guild_query_iter = some feed)
    (hbudget : (s.guild_join_count == s.limit) = false)
    (hceil : (s.client_guilds.length == GUILD_MAX_AMOUNT) = false) :
    (join_guilds search inc exc s).join_listener = s.join_listener ∧
    (join_guilds search inc exc s).timer_armed =
      (match (feed.dropWhile (fun c => joinFilterPass search inc exc c &&
          s.client_guilds.contains c.cid)).head? with
       | none => false
       | some h => joinFilterPass search inc exc h) ∧
    (joinLoop search inc exc feed s.guild_join_count s.client_guilds).attempts ≤ 1 ∧
    ((∀ c ∈ feed, joinFilterPass search inc exc c = true ∧
          s.client_guilds.contains c.cid = true) →
        (join_guilds search inc exc s).guild_join_count =
          s.guild_join_count + feed.length ∧
        (join_guilds search inc exc s).guild_query_iter = none ∧
        (join_guilds search inc exc s).timer_armed = false) ∧
    (∀ t : JoinState, t.guild_query_iter = none →
        join_guilds search inc exc t =
          { t with join_listener := false, timer_armed := false }) := by
  refine ⟨?_, ?_, ?_, ?_, ?_⟩
  · simp [join_guilds, hiter, hbudget, hceil]
  · simp only [join_guilds, hiter, hbudget, hceil, Bool.or_self, Bool.false_or]
    exact joinLoop_rearmed_iff search inc exc feed s.guild_join_count s.client_guilds
  · exact joinLoop_attempts_le_one search inc exc feed s.guild_join_count s.client_guilds
  · intro hall
    have hskip := joinLoop_all_skipped search inc exc feed
      s.guild_join_count s.client_guilds hall
    simp [join_guilds, hiter, hbudget, hceil, hskip]
  · intro t ht
    simp [join_guilds, ht]

/-- Witness for the amended C5 at a concrete input: a firing with one
not-yet-joined candidate `"good"` passing the include filter under the
exact matcher, budget 0 of 5, no joined guilds. -/
theorem c5_join_firing_behavior_witness :
    (⟨some [⟨1, "good", true⟩], 0, [], true, false, 5⟩ : JoinState).guild_query_iter =
      some [⟨1, "good", true⟩] ∧
    ((⟨some [⟨1, "good", true⟩], 0, [], true, false, 5⟩ : JoinState).guild_join_count ==
      (⟨some [⟨1, "good", true⟩], 0, [], true, false, 5⟩ : JoinState).limit) = false ∧
    ((⟨some [⟨1, "good", true⟩], 0, [], true, false, 5⟩ : JoinState).client_guilds.length ==
      GUILD_MAX_AMOUNT) = false ∧
    ((join_guilds (fun a b => a == b) "good" none
        ⟨some [⟨1, "good", true⟩], 0, [], true, false, 5⟩).join_listener =
      (⟨some [⟨1, "good", true⟩], 0, [], true, false, 5⟩ : JoinState).join_listener ∧
    (join_guilds (fun a b => a == b) "good" none
        ⟨some [⟨1, "good", true⟩], 0, [], true, false, 5⟩).timer_armed =
      (match (List.dropWhile
          (fun c => joinFilterPass (fun a b => a == b) "good" none c &&
            (⟨some [⟨1, "good", true⟩], 0, [], true, false, 5⟩ : JoinState).client_guilds.contains c.cid)
          [⟨1, "good", true⟩]).head? with
       | none => false
       | some h => joinFilterPass (fun a b => a == b) "good" none h) ∧
    (joinLoop (fun a b => a == b) "good" none [⟨1, "good", true⟩]
        (⟨some [⟨1, "good", true⟩], 0, [], true, false, 5⟩ : JoinState).guild_join_count
        (⟨some [⟨1, "good", true⟩], 0, [], true, false, 5⟩ : JoinState).client_guilds).attempts ≤ 1 ∧
    ((∀ c ∈ [(⟨1, "good", true⟩ : Candidate)],
          joinFilterPass (fun a b => a == b) "good" none c = true ∧
          (⟨some [⟨1, "good", true⟩], 0, [], true, false, 5⟩ : JoinState).client_guilds.contains c.cid = true) →
        (join_guilds (fun a b => a == b) "good" none
            ⟨some [⟨1, "good", true⟩], 0, [], true, false, 5⟩).guild_join_count =
          (⟨some [⟨1, "good", true⟩], 0, [], true, false, 5⟩ : JoinState).guild_join_count +
            [(⟨1, "good", true⟩ : Candidate)].length ∧
        (join_guilds (fun a b => a == b) "good" none
            ⟨some [⟨1, "good", true⟩], 0, [], true, false, 5⟩).guild_query_iter = none ∧
        (join_guilds (fun a b => a == b) "good" none
            ⟨some [⟨1, "good", true⟩], 0, [], true, false, 5⟩).timer_armed = false) ∧
    (∀ t : JoinState, t.guild_query_iter = none →
        join_guilds (fun a b => a == b) "good" none t =
          { t with join_listener := false, timer_armed := false })) :=
  ⟨rfl, rfl, rfl,
    c5_join_firing_behavior (fun a b => a == b) "good" none
      ⟨some [⟨1, "good", true⟩], 0, [], true, false, 5⟩ [⟨1, "good", true⟩]
      rfl rfl rfl⟩

end DAF
